import Mathlib

/-!
Verification of the `useQuery` React binding (src/react/hooks/useQuery.ts).

The development shallowly embeds the parameter normalizer
(`createWatchQueryOptions`), the snapshot memoizer (`getSnapshot`), the
reconciliation effect (the `useEffect` body at lines 135-146), the
first-initialization path (the `useState` initializer at lines 40-97) and the
SSR hydration subscription (`fetchData`, lines 73-89), and proves the spec's
claims about them.

JavaScript values are modelled as follows: query documents, client identities
and handle identities are opaque `Nat` tokens; `undefined`-able fields are
`Option`; the deep equality `equal` from @wry/equality is Lean propositional
equality on the embedded structures; object reference identity of snapshots is
tracked by an explicit `rid` field so that two content-equal snapshot objects
produced at different times are distinguishable, exactly as two distinct
JavaScript objects are.
-/

/-- The Apollo fetch policies that `useQuery` manipulates. -/
inductive FetchPolicy where
  | cacheFirst
  | cacheAndNetwork
  | networkOnly
  | cacheOnly
  | noCache
  | standby
deriving DecidableEq, Repr

/-- Query documents, compared by `equal` (deep equality) in the source;
modelled as opaque tokens. -/
abbrev Query := Nat

/-- Variable bindings of a query, e.g. `[("id", 1)]`. -/
abbrev Variables := List (String × Int)

/-- The options object accepted by `useQuery`
(`QueryHookOptions`): the binding-specific fields `skip`, `ssr`,
`onCompleted`, `onError`, `displayName`, plus the fields that are forwarded
to the engine.  `contextRenderPromises` embeds
`options.context?.renderPromises`: whether the context forwarded through the
options carries a render-promises coordinator.  Callbacks are modelled by
their presence only, since `createWatchQueryOptions` merely strips them. -/
structure QueryHookOptions where
  skip : Bool := false
  ssr : Option Bool := none
  onCompleted : Bool := false
  onError : Bool := false
  displayName : Option String := none
  fetchPolicy : Option FetchPolicy := none
  vars : Option Variables := none
  contextRenderPromises : Bool := false
  pollInterval : Option Nat := none
deriving DecidableEq, Repr

/-- The normalized configuration handed to the engine
(`WatchQueryOptions`): the forwarded option fields plus the query. -/
structure WatchQueryOptions where
  query : Query
  fetchPolicy : Option FetchPolicy := none
  vars : Option Variables := none
  contextRenderPromises : Bool := false
  pollInterval : Option Nat := none
deriving DecidableEq, Repr

/-- Embedding of `createWatchQueryOptions` (useQuery.ts lines 167-202):
strips the hook-specific fields, then
if `skip` forces `fetchPolicy` to `standby`;
else if the forwarded context has render promises and the policy is
`network-only` or `cache-and-network`, downgrades it to `cache-first`;
else if no policy was supplied, defaults it to `cache-first`. -/
def createWatchQueryOptions (query : Query)
    (options : QueryHookOptions) : WatchQueryOptions :=
  let fetchPolicy :=
    if options.skip then
      some FetchPolicy.standby
    else if options.contextRenderPromises ∧
        (options.fetchPolicy = some FetchPolicy.networkOnly ∨
          options.fetchPolicy = some FetchPolicy.cacheAndNetwork) then
      some FetchPolicy.cacheFirst
    else if options.fetchPolicy = none then
      some FetchPolicy.cacheFirst
    else
      options.fetchPolicy
  { query := query
    fetchPolicy := fetchPolicy
    vars := options.vars
    contextRenderPromises := options.contextRenderPromises
    pollInterval := options.pollInterval }

/-- A result snapshot (`ApolloQueryResult`): data, loading flag, network
status and error.  `rid` is the object reference identity of the JavaScript
snapshot object; two snapshots with equal fields but different `rid` model
two distinct objects with equal contents.  Error values are opaque codes. -/
structure ApolloQueryResult where
  rid : Nat
  data : Option Nat := none
  loading : Bool := false
  networkStatus : Nat := 7
  error : Option Nat := none
deriving DecidableEq, Repr

/-- One read of the memoizer's `getSnapshot` (useQuery.ts lines 113-127):
given the closed-over `previousResult` and the current result of
`obsQuery.getCurrentResult()`, produce the snapshot that is both stored back
into `previousResult` and returned.  The comparison uses `loading`,
`networkStatus` and deep equality of `data` only. -/
def getSnapshotStep (previousResult : Option ApolloQueryResult)
    (result : ApolloQueryResult) : ApolloQueryResult :=
  match previousResult with
  | some prev =>
      if prev.loading = result.loading ∧
          prev.networkStatus = result.networkStatus ∧
          prev.data = result.data then
        prev
      else
        result
  | none => result

/-- A live observable query handle (`ObservableQuery`).  `id` is the object
identity of the handle; `options` the configuration currently applied to it;
`currentResult` what `getCurrentResult()` returns; `setOptionsFailure`, when
`some e`, means the engine rejects a `setOptions` call on this handle with
error `e` (the promise returned by `setOptions` rejects). -/
structure ObservableQuery where
  id : Nat
  options : WatchQueryOptions
  currentResult : ApolloQueryResult
  setOptionsFailure : Option Nat := none
deriving DecidableEq, Repr

/-- The engine contract `client.watchQuery(watchQueryOptions)`: creates a
fresh handle from the configuration.  `freshId` is the identity the engine
allocates for the new handle and `engineResult` the initial result state the
engine gives it; both are inputs of the external engine, not of the
binding. -/
def watchQuery (freshId : Nat) (engineResult : ApolloQueryResult)
    (w : WatchQueryOptions) : ObservableQuery :=
  { id := freshId
    options := w
    currentResult := engineResult }

/-- The engine contract `obsQuery.setOptions(watchQueryOptions)`: applies the
configuration in place and may fail (the returned promise may reject). -/
def ObservableQuery.setOptions (oq : ObservableQuery)
    (w : WatchQueryOptions) : Except Nat ObservableQuery :=
  match oq.setOptionsFailure with
  | some e => Except.error e
  | none => Except.ok { oq with options := w }

/-- `obsQuery.setOptions(watchQueryOptions).catch(() => {})` (useQuery.ts
line 142): a rejection of the `setOptions` promise is swallowed and the
handle object (same identity) simply keeps its state. -/
def applySetOptionsCaught (oq : ObservableQuery)
    (w : WatchQueryOptions) : ObservableQuery :=
  match oq.setOptions w with
  | Except.ok oq' => oq'
  | Except.error _ => oq

/-- The persistent `useRef` cell (useQuery.ts lines 33-38): holds the client,
query, options and the configuration computed at mount time. -/
structure RefState where
  client : Nat
  query : Query
  options : QueryHookOptions
  watchQueryOptions : WatchQueryOptions
deriving DecidableEq, Repr

/-- Which branch the reconciliation effect took: handle replaced via
`client.watchQuery` + `setObsQuery`, soft-reconfigured via `setOptions`,
or left untouched. -/
inductive EffectAction where
  | replace
  | reconfigure
  | noop
deriving DecidableEq, Repr

/-- Embedding of the reconciliation effect (useQuery.ts lines 135-146).
Computes the new configuration; if the client reference or the query (deep
equality) changed, creates a fresh handle; else if the new configuration
differs (deep equality) from `ref.current.watchQueryOptions`, calls
`setOptions` with the rejection swallowed by `.catch(() => {})`; finally
`Object.assign(ref.current, { client, query, options })` reassigns exactly
those three fields.  `freshId` and `engineResult` are the engine's inputs
for the handle created in the replace branch. -/
def updateEffect (ref : RefState) (obsQuery : ObservableQuery)
    (client : Nat) (query : Query) (options : QueryHookOptions)
    (freshId : Nat) (engineResult : ApolloQueryResult) :
    RefState × ObservableQuery × EffectAction :=
  let watchQueryOptions := createWatchQueryOptions query options
  let newRef : RefState :=
    { ref with client := client, query := query, options := options }
  if ref.client ≠ client ∨ ref.query ≠ query then
    (newRef, watchQuery freshId engineResult watchQueryOptions,
      EffectAction.replace)
  else if ref.watchQueryOptions ≠ watchQueryOptions then
    (newRef, applySetOptionsCaught obsQuery watchQueryOptions,
      EffectAction.reconfigure)
  else
    (newRef, obsQuery, EffectAction.noop)

/-- The binding state carried across update cycles: the `useRef` cell and the
current `obsQuery` handle. -/
structure HookState where
  ref : RefState
  obsQuery : ObservableQuery
deriving DecidableEq, Repr

/-- The inputs of one update cycle: the render inputs (client, query,
options) and the engine's inputs for a handle created in that cycle. -/
structure CycleInput where
  client : Nat
  query : Query
  options : QueryHookOptions
  freshId : Nat
  engineResult : ApolloQueryResult
deriving DecidableEq, Repr

/-- One run of the reconciliation effect, threaded through `HookState`. -/
def updateCycle (s : HookState) (c : CycleInput) :
    HookState × EffectAction :=
  let out := updateEffect s.ref s.obsQuery c.client c.query c.options
    c.freshId c.engineResult
  ({ ref := out.1, obsQuery := out.2.1 }, out.2.2)

/-- Fold a sequence of update cycles over the binding state. -/
def runCycles (s : HookState) (cycles : List CycleInput) : HookState :=
  cycles.foldl (fun s c => (updateCycle s c).1) s

/-- The binding state right after mount: the `useRef` initializer stores the
initial client, query and options together with
`createWatchQueryOptions(query, options)`, and `obsQuery` is the handle the
`useState` initializer produced. -/
def mountState (client : Nat) (query : Query) (options : QueryHookOptions)
    (obsQuery : ObservableQuery) : HookState :=
  { ref :=
      { client := client
        query := query
        options := options
        watchQueryOptions := createWatchQueryOptions query options }
    obsQuery := obsQuery }

/-- Outcome of the `useState` initializer: the adopted or newly created
handle, whether `registerSSRObservable` was called, and whether
`addQueryPromise` registered a pending hydration. -/
structure InitOutcome where
  obsQuery : ObservableQuery
  registeredSSRObservable : Bool
  addedQueryPromise : Bool
deriving DecidableEq, Repr

/-- Embedding of the `useState` initializer (useQuery.ts lines 40-97).
`renderPromises` is whether `context.renderPromises` (the React context's
pre-render coordinator) is present; `getSSRObservable` is the coordinator's
lookup by configuration.  The initializer adopts an existing SSR observable
when one matches, otherwise creates one via `client.watchQuery` (registering
it with the coordinator when present); it then calls `addQueryPromise` iff
the coordinator is present, `options.ssr` is not explicitly `false`,
`options.skip` is not set, and the handle's current result is loading. -/
def initObsQuery (renderPromises : Bool)
    (getSSRObservable : WatchQueryOptions → Option ObservableQuery)
    (freshId : Nat) (engineResult : ApolloQueryResult)
    (query : Query) (options : QueryHookOptions) : InitOutcome :=
  let watchQueryOptions := createWatchQueryOptions query options
  let fromSSR : Option ObservableQuery :=
    if renderPromises then getSSRObservable watchQueryOptions else none
  let adopted :=
    match fromSSR with
    | some oq => (oq, false)
    | none => (watchQuery freshId engineResult watchQueryOptions,
        renderPromises)
  let obsQuery := adopted.1
  let added := renderPromises && !(options.ssr == some false) &&
    !options.skip && obsQuery.currentResult.loading
  { obsQuery := obsQuery
    registeredSSRObservable := adopted.2
    addedQueryPromise := added }

/-- Which of the three `fetchData` observer callbacks resolved the pending
hydration: a push with `loading` false, an error push, or completion. -/
inductive HydrationPath where
  | data
  | errorPush
  | completion
deriving DecidableEq, Repr

/-- An event emitted by the observable stream backing a handle. -/
inductive StreamEvent where
  | next (result : ApolloQueryResult)
  | errorPush (e : Nat)
  | complete
deriving DecidableEq, Repr

/-- The observable-side state of one `fetchData` registration (useQuery.ts
lines 73-89): whether the internal subscription is still attached, whether
the stream has terminated (an observable delivers nothing after `error` or
`complete`), which path resolved the promise first, how many times `resolve`
was called, and how many times `sub.unsubscribe()` was called by the
observer. -/
structure HydrationState where
  subscribed : Bool := true
  terminated : Bool := false
  resolvedVia : Option HydrationPath := none
  resolveCount : Nat := 0
  unsubscribeCount : Nat := 0
deriving DecidableEq, Repr

/-- Delivery of one stream event to the `fetchData` observer.  An event is
delivered only while the subscription is attached and the stream has not
terminated.  The observer resolves and unsubscribes on the first push with
`loading` false; resolves and unsubscribes on an error push (which also
terminates the stream); and on completion resolves only (the stream
terminates by itself). -/
def hydrationStep (s : HydrationState) (e : StreamEvent) : HydrationState :=
  if !s.subscribed || s.terminated then s
  else
    match e with
    | StreamEvent.next result =>
        if !result.loading then
          { s with
            resolveCount := s.resolveCount + 1
            resolvedVia := some HydrationPath.data
            subscribed := false
            unsubscribeCount := s.unsubscribeCount + 1 }
        else s
    | StreamEvent.errorPush _ =>
        { s with
          resolveCount := s.resolveCount + 1
          resolvedVia := some HydrationPath.errorPush
          terminated := true
          subscribed := false
          unsubscribeCount := s.unsubscribeCount + 1 }
    | StreamEvent.complete =>
        { s with
          resolveCount := s.resolveCount + 1
          resolvedVia := some HydrationPath.completion
          terminated := true }

/-- Run a `fetchData` registration against a whole emission trace. -/
def runHydration (events : List StreamEvent) : HydrationState :=
  events.foldl hydrationStep {}

/-- Whether delivering this event to a freshly attached observer would
resolve the pending hydration. -/
def isResolvingEvent : StreamEvent → Bool
  | StreamEvent.next result => !result.loading
  | StreamEvent.errorPush _ => true
  | StreamEvent.complete => true

/-- C6: for every input with the skip flag set, the normalized
configuration's fetch policy equals `standby`, regardless of any
caller-supplied fetch policy and of any hydration context. -/
theorem skip_forces_standby (query : Query) (options : QueryHookOptions)
    (h : options.skip = true) :
    (createWatchQueryOptions query options).fetchPolicy =
      some FetchPolicy.standby := by
  simp [createWatchQueryOptions, h]

theorem skip_forces_standby_witness :
    (createWatchQueryOptions 0
      { skip := true
        fetchPolicy := some FetchPolicy.networkOnly
        contextRenderPromises := true }).fetchPolicy =
      some FetchPolicy.standby :=
  skip_forces_standby 0
    { skip := true
      fetchPolicy := some FetchPolicy.networkOnly
      contextRenderPromises := true } rfl

/-- C7: for every input where skip is not set, a render-promises context is
active through the forwarded options, and the supplied fetch policy is
`network-only` or `cache-and-network`, the normalized configuration's fetch
policy is downgraded to `cache-first`. -/
theorem hydration_downgrades_network_policy (query : Query)
    (options : QueryHookOptions)
    (hskip : options.skip = false)
    (hctx : options.contextRenderPromises = true)
    (hfp : options.fetchPolicy = some FetchPolicy.networkOnly ∨
      options.fetchPolicy = some FetchPolicy.cacheAndNetwork) :
    (createWatchQueryOptions query options).fetchPolicy =
      some FetchPolicy.cacheFirst := by
  rcases hfp with h | h <;> simp [createWatchQueryOptions, hskip, hctx, h]

theorem hydration_downgrades_network_policy_witness :
    (createWatchQueryOptions 0
      { fetchPolicy := some FetchPolicy.networkOnly
        contextRenderPromises := true }).fetchPolicy =
      some FetchPolicy.cacheFirst :=
  hydration_downgrades_network_policy 0
    { fetchPolicy := some FetchPolicy.networkOnly
      contextRenderPromises := true } rfl rfl (Or.inl rfl)

/-- C8: during first initialization, `addQueryPromise` registers a pending
hydration iff a render-promises coordinator is present, the `ssr` option is
not explicitly `false`, the skip flag is not set, and the adopted or newly
created handle's current result is loading. -/
theorem addQueryPromise_registration_iff (renderPromises : Bool)
    (getSSRObservable : WatchQueryOptions → Option ObservableQuery)
    (freshId : Nat) (engineResult : ApolloQueryResult)
    (query : Query) (options : QueryHookOptions) :
    (initObsQuery renderPromises getSSRObservable freshId engineResult
        query options).addedQueryPromise = true ↔
      (renderPromises = true ∧ options.ssr ≠ some false ∧
        options.skip = false ∧
        (initObsQuery renderPromises getSSRObservable freshId engineResult
          query options).obsQuery.currentResult.loading = true) := by
  simp only [initObsQuery, Bool.and_eq_true, Bool.not_eq_true',
    beq_eq_false_iff_ne, ne_eq, Bool.not_eq_true]
  constructor
  · rintro ⟨⟨⟨h1, h2⟩, h3⟩, h4⟩
    exact ⟨h1, h2, h3, h4⟩
  · rintro ⟨h1, h2, h3, h4⟩
    exact ⟨⟨⟨h1, h2⟩, h3⟩, h4⟩

/-- A non-loading snapshot with no error, memoized by a previous read. -/
def errOnlyPrev : ApolloQueryResult :=
  { rid := 0, data := some 1, loading := false, networkStatus := 7,
    error := none }

/-- A later snapshot object, identical to `errOnlyPrev` in `data`, `loading`
and `networkStatus` but now carrying an error. -/
def errOnlyCur : ApolloQueryResult :=
  { rid := 1, data := some 1, loading := false, networkStatus := 7,
    error := some 42 }

/-- Unfolding equation of `getSnapshotStep` when a previous snapshot is
memoized. -/
theorem getSnapshotStep_some (prev result : ApolloQueryResult) :
    getSnapshotStep (some prev) result =
      if prev.loading = result.loading ∧
          prev.networkStatus = result.networkStatus ∧
          prev.data = result.data then prev
      else result := rfl

/-- C2 counterexample: when only the error field changes, `getSnapshot`
returns the memoized previous snapshot object, not the new one — the error
transition IS suppressed by the equality short-circuit, because the
comparison reads only `loading`, `networkStatus` and `data`. -/
theorem error_only_transition_suppressed :
    errOnlyPrev.error ≠ errOnlyCur.error ∧
    errOnlyCur ≠ errOnlyPrev ∧
    getSnapshotStep (some errOnlyPrev) errOnlyCur = errOnlyPrev := by
  decide

/-- C2 amended: a read whose error field differs from the memoized previous
snapshot's returns the new snapshot object only when `loading`,
`networkStatus` or `data` (deep equality) also differs; with all three equal
the memoized previous snapshot is returned and the error transition is
suppressed. -/
theorem error_transition_with_compared_change (prev result : ApolloQueryResult)
    (herr : prev.error ≠ result.error)
    (hchange : prev.loading ≠ result.loading ∨
      prev.networkStatus ≠ result.networkStatus ∨
      prev.data ≠ result.data) :
    getSnapshotStep (some prev) result = result := by
  have hne : ¬(prev.loading = result.loading ∧
      prev.networkStatus = result.networkStatus ∧
      prev.data = result.data) := by
    rintro ⟨h1, h2, h3⟩
    rcases hchange with hc | hc | hc <;> contradiction
  rw [getSnapshotStep_some, if_neg hne]

theorem error_transition_with_compared_change_witness :
    getSnapshotStep (some errOnlyPrev)
      { rid := 2, data := some 1, loading := true, networkStatus := 1,
        error := some 9 } =
      { rid := 2, data := some 1, loading := true, networkStatus := 1,
        error := some 9 } :=
  error_transition_with_compared_change errOnlyPrev
    { rid := 2, data := some 1, loading := true, networkStatus := 1,
      error := some 9 }
    (by decide) (Or.inl (by decide))

/-- C3: two consecutive reads whose underlying results agree on `loading`,
`networkStatus` and `data` (deep equality) return the identical snapshot
object: the second read returns exactly what the first read returned and
stored. -/
theorem getSnapshot_referential_stability
    (previousResult : Option ApolloQueryResult)
    (r1 r2 : ApolloQueryResult)
    (hl : r1.loading = r2.loading)
    (hn : r1.networkStatus = r2.networkStatus)
    (hd : r1.data = r2.data) :
    getSnapshotStep (some (getSnapshotStep previousResult r1)) r2 =
      getSnapshotStep previousResult r1 := by
  cases previousResult with
  | none =>
      rw [show getSnapshotStep none r1 = r1 from rfl, getSnapshotStep_some,
        if_pos ⟨hl, hn, hd⟩]
  | some prev =>
      by_cases h : prev.loading = r1.loading ∧
          prev.networkStatus = r1.networkStatus ∧ prev.data = r1.data
      · have e1 : getSnapshotStep (some prev) r1 = prev := by
          rw [getSnapshotStep_some, if_pos h]
        rw [e1, getSnapshotStep_some,
          if_pos ⟨h.1.trans hl, h.2.1.trans hn, h.2.2.trans hd⟩]
      · have e1 : getSnapshotStep (some prev) r1 = r1 := by
          rw [getSnapshotStep_some, if_neg h]
        rw [e1, getSnapshotStep_some, if_pos ⟨hl, hn, hd⟩]

theorem getSnapshot_referential_stability_witness :
    getSnapshotStep
      (some (getSnapshotStep none
        { rid := 0, data := some 5, loading := false, networkStatus := 7,
          error := none }))
      { rid := 1, data := some 5, loading := false, networkStatus := 7,
        error := some 3 } =
      getSnapshotStep none
        { rid := 0, data := some 5, loading := false, networkStatus := 7,
          error := none } :=
  getSnapshot_referential_stability none
    { rid := 0, data := some 5, loading := false, networkStatus := 7,
      error := none }
    { rid := 1, data := some 5, loading := false, networkStatus := 7,
      error := some 3 }
    rfl rfl rfl

/-- C4: whenever the client reference or the query (deep equality) changed
since the previous cycle, the effect installs the handle freshly created by
`client.watchQuery` from the newly normalized configuration — a handle with
a new identity — even if all other inputs are unchanged. -/
theorem client_or_query_change_replaces_handle
    (ref : RefState) (obsQuery : ObservableQuery)
    (client : Nat) (query : Query) (options : QueryHookOptions)
    (freshId : Nat) (engineResult : ApolloQueryResult)
    (hchange : ref.client ≠ client ∨ ref.query ≠ query)
    (hfresh : freshId ≠ obsQuery.id) :
    updateEffect ref obsQuery client query options freshId engineResult =
      ({ ref with client := client, query := query, options := options },
        watchQuery freshId engineResult
          (createWatchQueryOptions query options),
        EffectAction.replace) ∧
    (watchQuery freshId engineResult
      (createWatchQueryOptions query options)).id ≠ obsQuery.id := by
  constructor
  · unfold updateEffect
    rw [if_pos hchange]
  · simpa [watchQuery] using hfresh

theorem client_or_query_change_replaces_handle_witness :
    updateEffect
      { client := 0, query := 0, options := {},
        watchQueryOptions := createWatchQueryOptions 0 {} }
      (watchQuery 10 { rid := 0 } (createWatchQueryOptions 0 {}))
      1 0 {} 11 { rid := 1 } =
      ({ client := 1, query := 0, options := {},
         watchQueryOptions := createWatchQueryOptions 0 {} },
        watchQuery 11 { rid := 1 } (createWatchQueryOptions 0 {}),
        EffectAction.replace) ∧
    (watchQuery 11 { rid := 1 } (createWatchQueryOptions 0 {})).id ≠
      (watchQuery 10 { rid := 0 } (createWatchQueryOptions 0 {})).id :=
  client_or_query_change_replaces_handle
    { client := 0, query := 0, options := {},
      watchQueryOptions := createWatchQueryOptions 0 {} }
    (watchQuery 10 { rid := 0 } (createWatchQueryOptions 0 {}))
    1 0 {} 11 { rid := 1 }
    (Or.inl (by decide)) (by decide)

/-- C5: in the soft-reconfigure branch, a `setOptions` rejection is swallowed
by `.catch(() => {})`: the update cycle still completes with the same handle
identity, the ref updated as usual and the reconfigure action taken — no
failure propagates to the consumer. -/
theorem reconfigure_failure_swallowed
    (ref : RefState) (obsQuery : ObservableQuery)
    (client : Nat) (query : Query) (options : QueryHookOptions)
    (freshId : Nat) (engineResult : ApolloQueryResult) (e : Nat)
    (hclient : ref.client = client) (hquery : ref.query = query)
    (hdiff : ref.watchQueryOptions ≠ createWatchQueryOptions query options)
    (hfail : obsQuery.setOptions (createWatchQueryOptions query options) =
      Except.error e) :
    updateEffect ref obsQuery client query options freshId engineResult =
      ({ ref with client := client, query := query, options := options },
        obsQuery, EffectAction.reconfigure) := by
  unfold updateEffect
  rw [if_neg (by push_neg; exact ⟨hclient, hquery⟩), if_pos hdiff]
  unfold applySetOptionsCaught
  rw [hfail]

theorem reconfigure_failure_swallowed_witness :
    updateEffect
      { client := 0, query := 0, options := {},
        watchQueryOptions := createWatchQueryOptions 0 {} }
      { id := 10, options := createWatchQueryOptions 0 {},
        currentResult := { rid := 0 }, setOptionsFailure := some 7 }
      0 0 { pollInterval := some 1 } 11 { rid := 1 } =
      ({ client := 0, query := 0, options := { pollInterval := some 1 },
         watchQueryOptions := createWatchQueryOptions 0 {} },
        { id := 10, options := createWatchQueryOptions 0 {},
          currentResult := { rid := 0 }, setOptionsFailure := some 7 },
        EffectAction.reconfigure) :=
  reconfigure_failure_swallowed
    { client := 0, query := 0, options := {},
      watchQueryOptions := createWatchQueryOptions 0 {} }
    { id := 10, options := createWatchQueryOptions 0 {},
      currentResult := { rid := 0 }, setOptionsFailure := some 7 }
    0 0 { pollInterval := some 1 } 11 { rid := 1 } 7
    rfl rfl (by decide) rfl

/-- The ref cell after one cycle: exactly `client`, `query` and `options`
are reassigned (in every branch of the effect), the rest is untouched. -/
theorem updateCycle_ref (s : HookState) (c : CycleInput) :
    (updateCycle s c).1.ref =
      { s.ref with
        client := c.client
        query := c.query
        options := c.options } := by
  unfold updateCycle updateEffect
  dsimp only
  split
  · rfl
  · split <;> rfl

/-- Folding cycles never touches the ref's `watchQueryOptions` field. -/
theorem runCycles_watchQueryOptions (s : HookState)
    (cycles : List CycleInput) :
    (runCycles s cycles).ref.watchQueryOptions =
      s.ref.watchQueryOptions := by
  induction cycles generalizing s with
  | nil => rfl
  | cons c rest ih =>
      rw [runCycles, List.foldl_cons]
      rw [show (List.foldl (fun s c => (updateCycle s c).1)
        ((updateCycle s c).1) rest) =
        runCycles ((updateCycle s c).1) rest from rfl]
      rw [ih, updateCycle_ref]

/-- C10: across any sequence of update cycles after mount, the ref cell's
`watchQueryOptions` still holds the configuration computed from the initial
inputs, while each cycle reassigns exactly the `client`, `query` and
`options` fields to that cycle's inputs. -/
theorem ref_watchQueryOptions_is_mount_config
    (client : Nat) (query : Query) (options : QueryHookOptions)
    (obsQuery : ObservableQuery) (cycles : List CycleInput) :
    (runCycles (mountState client query options obsQuery)
        cycles).ref.watchQueryOptions =
      createWatchQueryOptions query options ∧
    ∀ (s : HookState) (c : CycleInput),
      (updateCycle s c).1.ref.client = c.client ∧
      (updateCycle s c).1.ref.query = c.query ∧
      (updateCycle s c).1.ref.options = c.options ∧
      (updateCycle s c).1.ref.watchQueryOptions =
        s.ref.watchQueryOptions := by
  refine ⟨?_, ?_⟩
  · rw [runCycles_watchQueryOptions]
    rfl
  · intro s c
    rw [updateCycle_ref]
    exact ⟨rfl, rfl, rfl, rfl⟩

/-- The options of the C1 trace's mount cycle: variables `{id: 1}`. -/
def c1OptionsA : QueryHookOptions := { vars := some [("id", 1)] }

/-- The options of the C1 trace's second cycle: variables `{id: 2}`. -/
def c1OptionsB : QueryHookOptions := { vars := some [("id", 2)] }

/-- The C1 trace's state after mount: client 0, query 0, variables
`{id: 1}`, with the handle the initializer created from that
configuration. -/
def c1Mount : HookState :=
  mountState 0 0 c1OptionsA
    (watchQuery 100 { rid := 0, loading := true }
      (createWatchQueryOptions 0 c1OptionsA))

/-- The C1 trace after the second cycle: same client and query, variables
now `{id: 2}`. -/
def c1Second : HookState × EffectAction :=
  updateCycle c1Mount
    { client := 0, query := 0, options := c1OptionsB, freshId := 101,
      engineResult := { rid := 1 } }

/-- The C1 trace after the third cycle: same client and query, variables
back to `{id: 1}`. -/
def c1Third : HookState × EffectAction :=
  updateCycle c1Second.1
    { client := 0, query := 0, options := c1OptionsA, freshId := 102,
      engineResult := { rid := 2 } }

/-- C1 evaluated on the failing trace: the second cycle soft-reconfigures
the same handle to the `{id: 2}` configuration, but the third cycle — whose
newly normalized configuration differs from the configuration the handle was
last reconfigured with — takes the no-op branch and leaves the handle on the
stale `{id: 2}` configuration, because the effect compares against the
never-updated mount-time `ref.current.watchQueryOptions` instead of the
handle's last-applied configuration. -/
theorem stale_baseline_skips_reconfigure :
    c1Second.2 = EffectAction.reconfigure ∧
    c1Second.1.obsQuery.id = c1Mount.obsQuery.id ∧
    c1Second.1.obsQuery.options = createWatchQueryOptions 0 c1OptionsB ∧
    c1Third.2 = EffectAction.noop ∧
    c1Third.1.obsQuery.options ≠ createWatchQueryOptions 0 c1OptionsA ∧
    c1Third.1.obsQuery.options = createWatchQueryOptions 0 c1OptionsB := by
  decide

/-- Invariant of a `fetchData` registration's state: before resolution
nothing has happened and the listener is attached to a live stream; after
resolution the resolve count is exactly one and the unsubscribe bookkeeping
matches the path taken. -/
def HydrationInv (s : HydrationState) : Prop :=
  (s.resolvedVia = none →
    s.resolveCount = 0 ∧ s.unsubscribeCount = 0 ∧
    s.subscribed = true ∧ s.terminated = false) ∧
  (s.resolvedVia ≠ none → s.resolveCount = 1) ∧
  (s.resolvedVia = some HydrationPath.data →
    s.unsubscribeCount = 1 ∧ s.subscribed = false) ∧
  (s.resolvedVia = some HydrationPath.errorPush →
    s.unsubscribeCount = 1 ∧ s.subscribed = false) ∧
  (s.resolvedVia = some HydrationPath.completion →
    s.unsubscribeCount = 0 ∧ s.terminated = true)

/-- Once resolved, a registration's state absorbs every further event: the
listener is detached or the stream has terminated, so nothing is
delivered. -/
theorem hydrationStep_frozen (s : HydrationState) (e : StreamEvent)
    (hinv : HydrationInv s) (hres : s.resolvedVia ≠ none) :
    hydrationStep s e = s := by
  obtain ⟨-, -, hdata, herr2, hcomp⟩ := hinv
  have hguard : (!s.subscribed || s.terminated) = true := by
    cases hp : s.resolvedVia with
    | none => exact absurd hp hres
    | some p =>
        cases p with
        | data => simp [(hdata hp).2]
        | errorPush => simp [(herr2 hp).2]
        | completion => simp [(hcomp hp).2]
  unfold hydrationStep
  rw [if_pos hguard]


/-- Step equation: a loading push delivered to a live, unresolved listener
changes nothing. -/
theorem hydrationStep_next_loading (s : HydrationState)
    (result : ApolloQueryResult)
    (hs : s.subscribed = true) (ht : s.terminated = false)
    (hl : result.loading = true) :
    hydrationStep s (StreamEvent.next result) = s := by
  simp [hydrationStep, hs, ht, hl]

/-- Step equation: the first non-loading push resolves via the data path and
unsubscribes. -/
theorem hydrationStep_next_data (s : HydrationState)
    (result : ApolloQueryResult)
    (hs : s.subscribed = true) (ht : s.terminated = false)
    (hl : result.loading = false) :
    hydrationStep s (StreamEvent.next result) =
      { s with
        resolveCount := s.resolveCount + 1
        resolvedVia := some HydrationPath.data
        subscribed := false
        unsubscribeCount := s.unsubscribeCount + 1 } := by
  simp [hydrationStep, hs, ht, hl]

/-- Step equation: an error push resolves via the error path, terminates the
stream and unsubscribes. -/
theorem hydrationStep_error (s : HydrationState) (err : Nat)
    (hs : s.subscribed = true) (ht : s.terminated = false) :
    hydrationStep s (StreamEvent.errorPush err) =
      { s with
        resolveCount := s.resolveCount + 1
        resolvedVia := some HydrationPath.errorPush
        terminated := true
        subscribed := false
        unsubscribeCount := s.unsubscribeCount + 1 } := by
  simp [hydrationStep, hs, ht]

/-- Step equation: completion resolves via the completion path and performs
no unsubscribe. -/
theorem hydrationStep_complete (s : HydrationState)
    (hs : s.subscribed = true) (ht : s.terminated = false) :
    hydrationStep s StreamEvent.complete =
      { s with
        resolveCount := s.resolveCount + 1
        resolvedVia := some HydrationPath.completion
        terminated := true } := by
  simp [hydrationStep, hs, ht]

/-- Delivering one event preserves the registration invariant. -/
theorem hydrationInv_step (s : HydrationState) (e : StreamEvent)
    (hinv : HydrationInv s) : HydrationInv (hydrationStep s e) := by
  cases hp : s.resolvedVia with
  | some p =>
      have hres : s.resolvedVia ≠ none := by rw [hp]; simp
      rw [hydrationStep_frozen s e hinv hres]
      exact hinv
  | none =>
      obtain ⟨hc, hu, hs, ht⟩ := hinv.1 hp
      cases e with
      | next result =>
          by_cases hl : result.loading = true
          · rw [hydrationStep_next_loading s result hs ht hl]
            exact hinv
          · rw [hydrationStep_next_data s result hs ht
              (eq_false_of_ne_true hl)]
            refine ⟨?_, ?_, ?_, ?_, ?_⟩ <;> intro h <;> simp_all
      | errorPush err =>
          rw [hydrationStep_error s err hs ht]
          refine ⟨?_, ?_, ?_, ?_, ?_⟩ <;> intro h <;> simp_all
      | complete =>
          rw [hydrationStep_complete s hs ht]
          refine ⟨?_, ?_, ?_, ?_, ?_⟩ <;> intro h <;> simp_all

/-- Folding a trace preserves the registration invariant. -/
theorem hydrationInv_run (events : List StreamEvent) (s : HydrationState)
    (hinv : HydrationInv s) :
    HydrationInv (events.foldl hydrationStep s) := by
  induction events generalizing s with
  | nil => exact hinv
  | cons e rest ih =>
      rw [List.foldl_cons]
      exact ih (hydrationStep s e) (hydrationInv_step s e hinv)

/-- Once resolved, folding any further trace leaves the state unchanged. -/
theorem hydrationRun_frozen (events : List StreamEvent) (s : HydrationState)
    (hinv : HydrationInv s) (hres : s.resolvedVia ≠ none) :
    events.foldl hydrationStep s = s := by
  induction events with
  | nil => rfl
  | cons e rest ih =>
      rw [List.foldl_cons, hydrationStep_frozen s e hinv hres, ih]

/-- If the trace contains an event that resolves a fresh observer — a push
with `loading` false, an error push, or completion — then the registration
ends up resolved. -/
theorem hydrationRun_resolves (events : List StreamEvent)
    (s : HydrationState) (hinv : HydrationInv s)
    (hex : ∃ e ∈ events, isResolvingEvent e = true) :
    (events.foldl hydrationStep s).resolvedVia ≠ none := by
  induction events generalizing s with
  | nil => exact absurd hex (by simp)
  | cons e rest ih =>
      rw [List.foldl_cons]
      cases hp : s.resolvedVia with
      | some p =>
          have hres : s.resolvedVia ≠ none := by rw [hp]; simp
          rw [hydrationStep_frozen s e hinv hres,
            hydrationRun_frozen rest s hinv hres, hp]
          simp
      | none =>
          obtain ⟨hc, hu, hs, ht⟩ := hinv.1 hp
          by_cases hr : isResolvingEvent e = true
          · have hstep : (hydrationStep s e).resolvedVia ≠ none := by
              cases e with
              | next result =>
                  have hl : result.loading = false := by
                    simpa [isResolvingEvent] using hr
                  rw [hydrationStep_next_data s result hs ht hl]
                  simp
              | errorPush err =>
                  rw [hydrationStep_error s err hs ht]
                  simp
              | complete =>
                  rw [hydrationStep_complete s hs ht]
                  simp
            rw [hydrationRun_frozen rest (hydrationStep s e)
              (hydrationInv_step s e hinv) hstep]
            exact hstep
          · apply ih (hydrationStep s e) (hydrationInv_step s e hinv)
            rcases hex with ⟨e2, he2, hre2⟩
            rcases List.mem_cons.mp he2 with rfl | hmem
            · exact absurd hre2 hr
            · exact ⟨e2, hmem, hre2⟩

/-- C9: for every emission trace, a `fetchData` registration resolves at
most once, resolves exactly once as soon as the trace contains a
non-loading push, an error push or a completion, and the path bookkeeping
matches the source: the non-loading push and the error push each call
`sub.unsubscribe()` exactly once, while completion never calls it. -/
theorem fetchData_resolution_exclusive (events : List StreamEvent) :
    (runHydration events).resolveCount ≤ 1 ∧
    ((∃ e ∈ events, isResolvingEvent e = true) →
      (runHydration events).resolveCount = 1) ∧
    ((runHydration events).resolvedVia = some HydrationPath.data →
      (runHydration events).unsubscribeCount = 1) ∧
    ((runHydration events).resolvedVia = some HydrationPath.errorPush →
      (runHydration events).unsubscribeCount = 1) ∧
    ((runHydration events).resolvedVia = some HydrationPath.completion →
      (runHydration events).unsubscribeCount = 0) := by
  have hinv0 : HydrationInv {} := by
    refine ⟨fun h => ⟨rfl, rfl, rfl, rfl⟩, fun h => absurd rfl h, ?_, ?_, ?_⟩
      <;> intro h <;> exact Option.noConfusion h
  have hinv : HydrationInv (runHydration events) :=
    hydrationInv_run events {} hinv0
  obtain ⟨hnone, hsome, hdata, herr2, hcomp⟩ := hinv
  refine ⟨?_, ?_, fun h => (hdata h).1, fun h => (herr2 h).1,
    fun h => (hcomp h).1⟩
  · cases hp : (runHydration events).resolvedVia with
    | none =>
        rw [(hnone hp).1]
        decide
    | some p =>
        exact (hsome (by rw [hp]; simp)).le
  · intro hex
    exact hsome (hydrationRun_resolves events {} hinv0 hex)

theorem fetchData_resolution_exclusive_witness :
    (runHydration [StreamEvent.next { rid := 0, loading := true },
      StreamEvent.errorPush 5]).resolveCount = 1 :=
  (fetchData_resolution_exclusive
    [StreamEvent.next { rid := 0, loading := true },
      StreamEvent.errorPush 5]).2.1
    ⟨StreamEvent.errorPush 5, by decide, rfl⟩
